import Mathlib

/-!
# Verification of the celery-salt topic dispatcher core

Shallow embedding of the celery-salt message dispatcher, RPC client and
validation helpers, with theorems checking the natural-language
specification against the code.

Embedded from the repository sources:
* `celery_salt/integrations/dispatcher.py` (`dispatch_event`)
* `celery_salt/integrations/producer.py` (`call_rpc` result unwrapping)
* `celery_salt/core/decorators.py` (`validated_handler`, `_validate_rpc_response`)
* `celery_salt/logging/validation_errors.py` (`format_validation_error`, `_loc_to_path`)

The modules `celery_salt/core/versioning.py`, `celery_salt/core/exceptions.py`
and `celery_salt/integrations/registry.py` are not present in the source
tree (only their tests, imports and callers are); the definitions standing
in for them are modelled from the specification and are marked as such in
their doc comments.

String primitives (strip, split, lowercase, substring search) are
re-implemented over `List Char` so that all definitions evaluate inside the
kernel; each mirrors the corresponding Python string operation.
-/

/-- Python `str.strip()` on a character list: drop leading and trailing
whitespace. -/
def trimChars (cs : List Char) : List Char :=
  ((cs.dropWhile Char.isWhitespace).reverse.dropWhile Char.isWhitespace).reverse

/-- Python `str.split(sep)` for a single-character separator, over a
character list. Always returns at least one (possibly empty) group. -/
def splitOnChar (sep : Char) : List Char → List (List Char)
  | [] => [[]]
  | c :: rest =>
    match splitOnChar sep rest with
    | [] => [[]]
    | g :: gs => if c == sep then [] :: g :: gs else (c :: g) :: gs

/-- Decimal value of a digit string (only applied to all-digit groups). -/
def natOfDigits (cs : List Char) : Nat :=
  cs.foldl (fun n c => 10 * n + (c.toNat - 48)) 0

/-- Python `needle in haystack` substring test over character lists. -/
def charsContain (hay needle : List Char) : Bool :=
  hay.tails.any (fun t => needle.isPrefixOf t)

/-- Python `str.lower()` over a character list. -/
def lowerChars (cs : List Char) : List Char :=
  cs.map Char.toLower

/-- A JSON-like value, the shape of deserialized message payloads. -/
inductive JVal where
  | jnull : JVal
  | jbool (b : Bool) : JVal
  | jnum (n : Int) : JVal
  | jstr (s : String) : JVal
  | jobj (kvs : List (String × JVal)) : JVal

/-- Dictionary lookup on a JSON object body, mirroring Python `d.get(k)`. -/
def lookupKey (kvs : List (String × JVal)) (k : String) : Option JVal :=
  (kvs.find? (fun p => p.1 == k)).map (fun p => p.2)

/-- The single quote character, used in log/error message construction. -/
def squote : String := String.singleton (Char.ofNat 39)

/-- Modelled from the spec (section 4.1): `_parse_version` of the missing
module `celery_salt/core/versioning.py`. Strips an optional leading `v`/`V`,
trims whitespace, splits on `.`; a tag with any non-numeric component (or an
empty tag) parses to the empty list. -/
def _parse_version (tag : String) : List Nat :=
  let t := trimChars tag.data
  let t := match t with
    | 'v' :: rest => rest
    | 'V' :: rest => rest
    | other => other
  let comps := splitOnChar '.' t
  if comps.all (fun c => !c.isEmpty && c.all Char.isDigit) then
    comps.map natOfDigits
  else
    []

/-- Lexicographic comparison of parsed version component lists of equal
length, returning -1, 0 or 1. -/
def compareComponents : List Nat → List Nat → Int
  | [], [] => 0
  | [], _ :: _ => 0
  | _ :: _, [] => 0
  | x :: xs, y :: ys =>
    if x < y then -1 else if y < x then 1 else compareComponents xs ys

/-- Modelled from the spec (section 4.1): `compare_versions` of the missing
module `celery_salt/core/versioning.py`. Pads the shorter parsed tag with
zeros, then compares component-wise. -/
def compare_versions (a b : String) : Int :=
  let pa := _parse_version a
  let pb := _parse_version b
  let n := max pa.length pb.length
  compareComponents (pa ++ List.replicate (n - pa.length) 0)
    (pb ++ List.replicate (n - pb.length) 0)

/-- Modelled from the spec (section 4.1): `is_version_compatible` of the
missing module `celery_salt/core/versioning.py`. A handler version of
`latest` or `None` accepts everything; a specific handler version refuses an
absent message version and otherwise requires `compare(handler, message) <= 0`. -/
def is_version_compatible (handlerVersion messageVersion : Option String) : Bool :=
  match handlerVersion with
  | none => true
  | some h =>
    if h == "latest" then true
    else
      match messageVersion with
      | none => false
      | some m => compare_versions h m ≤ 0

/-- The `_tchu_meta` metadata block of a message (`DispatchEnvelope`
metadata): the `is_rpc` key may itself be absent, and an optional `version`
tag may be present. -/
structure TchuMeta where
  isRpcField : Option Bool
  version : Option String

/-- A deserialized message body: topic-specific fields plus the optional
`_tchu_meta` block (absent for legacy/foreign producers). -/
structure MsgBody where
  data : List (String × JVal)
  meta : Option TchuMeta

/-- A value produced by a handler call: either a Pydantic model instance
(later serialized with `model_dump`) or a plain value. -/
inductive PyVal where
  | model (kvs : List (String × JVal)) : PyVal
  | plain (v : JVal) : PyVal

/-- Outcome of calling a handler task function synchronously: it returns a
value or raises an exception carrying `str(e)`. -/
inductive HandlerRun where
  | returns (v : PyVal) : HandlerRun
  | raises (msg : String) : HandlerRun

/-- Modelled from the spec (sections 3 and 4.3): one `HandlerRegistration`
of the missing module `celery_salt/integrations/registry.py`: routing
pattern, handler name, handler id, declared version (default `latest`,
represented as `none`), and the callable (its synchronous behaviour on a
message body). -/
structure HandlerReg where
  pattern : String
  name : String
  id : String
  version : Option String
  run : MsgBody → HandlerRun

/-- AMQP topic matching of a pattern against a routing key, both split on
`.`: `*` matches exactly one segment, `#` matches zero or more segments. -/
def topicMatch : List String → List String → Bool
  | [], ks => ks.isEmpty
  | p :: ps, ks =>
    if p == "#" then
      ks.tails.any (fun suffix => topicMatch ps suffix)
    else
      match ks with
      | [] => false
      | k :: ks' => (p == "*" || p == k) && topicMatch ps ks'

/-- Split a routing key or pattern into its dot-separated segments. -/
def keySegments (s : String) : List String :=
  (splitOnChar '.' s.data).map (fun cs => String.mk cs)

/-- Modelled from the spec (section 4.3): `get_handlers` of the missing
module `celery_salt/integrations/registry.py`: every registration whose
pattern matches the routing key under AMQP topic semantics. -/
def registryGetHandlers (regs : List HandlerReg) (routingKey : String) : List HandlerReg :=
  regs.filter (fun r => topicMatch (keySegments r.pattern) (keySegments routingKey))

/-- A per-handler outcome record appended to `results` by `dispatch_event`
(`celery_salt/integrations/dispatcher.py`): the `result`, `error` and
`task_id` keys are present only on the corresponding status. -/
structure Outcome where
  handler : String
  status : String
  result : Option JVal := none
  error : Option String := none
  taskId : Option String := none

/-- The value returned by one `dispatch_event` invocation: either the
`no_handlers` record or the completed report with the per-handler results
(`celery_salt/integrations/dispatcher.py`, lines 87-200). -/
inductive DispatchReport where
  | noHandlers (routingKey : String) : DispatchReport
  | completed (routingKey : String) (isRpc : Bool) (handlersExecuted : Nat)
      (results : List Outcome) : DispatchReport

/-- The RPC branch of the per-handler loop of `dispatch_event` (lines
101-158): call the handler task function synchronously; a returned Pydantic
model is converted with `model_dump`; a success is recorded with the result,
an exception is caught and recorded as a per-handler `error` outcome with
`str(e)`. -/
def execHandlerRpc (body : MsgBody) (h : HandlerReg) : Outcome :=
  match h.run body with
  | .returns (.model kvs) => { handler := h.name, status := "success", result := some (.jobj kvs) }
  | .returns (.plain v) => { handler := h.name, status := "success", result := some v }
  | .raises e => { handler := h.name, status := "error", error := some e }

/-- The broadcast branch of the per-handler loop of `dispatch_event` (lines
159-180): the handler is submitted with `apply_async` under task id
`{message_id}:{handler_id}` and a `dispatched` outcome is recorded without
executing it. -/
def execHandlerBroadcast (messageId : String) (h : HandlerReg) : Outcome :=
  { handler := h.name, status := "dispatched", taskId := some (messageId ++ ":" ++ h.id) }

/-- The execution-mode computation of `dispatch_event`
(`celery_salt/integrations/dispatcher.py`, lines 74-82), split out so
theorems can name it: `is_rpc` defaults to `True` when the whole
`_tchu_meta` block is absent and to `False` when only the `is_rpc` key is
absent from a present block. -/
def dispatch_is_rpc (body : MsgBody) : Bool :=
  match body.meta with
  | none => true
  | some m => m.isRpcField.getD false

/-- `dispatch_event` of `celery_salt/integrations/dispatcher.py` (lines
44-206). Deserialization and handler lookup are taken as `Except`-valued
inputs (they call external collaborators and may raise); a failure of either
is re-raised out of the dispatch (the outer `except` re-raises). -/
def dispatch_event (routingKey messageId : String)
    (deserialize : Except String MsgBody)
    (getHandlers : String → Except String (List HandlerReg)) :
    Except String DispatchReport :=
  match deserialize with
  | .error e => .error e
  | .ok body =>
    let isRpc := dispatch_is_rpc body
    match getHandlers routingKey with
    | .error e => .error e
    | .ok handlers =>
      if handlers.isEmpty then
        .ok (.noHandlers routingKey)
      else
        let results := handlers.map (fun h =>
          if isRpc then execHandlerRpc body h else execHandlerBroadcast messageId h)
        .ok (.completed routingKey isRpc results.length results)

/-- Behaviour of the raw subscriber function `func` wrapped by `@subscribe`:
it returns a value, raises a business-level `RPCError` (code, message,
optional details), or raises some other exception. -/
inductive FuncBehavior where
  | ret (v : PyVal) : FuncBehavior
  | rpcError (code msg : String) (details : Option JVal) : FuncBehavior
  | raises (msg : String) : FuncBehavior

/-- Modelled from the spec (section 7 and the `@event.error` schema shape):
`RPCError.to_response_dict` of the missing module
`celery_salt/core/exceptions.py`: a dict carrying the error code, error
message and optional details. -/
def to_response_dict (code msg : String) (details : Option JVal) : List (String × JVal) :=
  [("error_code", .jstr code), ("error_message", .jstr msg)] ++
    (match details with
     | some d => [("details", d)]
     | none => [])

/-- A registered response or error schema: validating a dict either succeeds
with the model instance content (`model(**dict)`) or fails with a Pydantic
`ValidationError`. `none` at the outer level means no schema is registered
for the topic. -/
def SchemaValidator := Option (List (String × JVal) → Option (List (String × JVal)))

/-- `validated_handler` of `celery_salt/core/decorators.py` (lines 476-535),
the wrapper `@subscribe` installs around `func`. It pops `_tchu_meta`
(reading `is_rpc` with default `False`, so an absent block also means
`False` here), validates the remaining data against the subscription model
(re-raising a validation failure), then calls `func`:
* an `RPCError` is converted, for RPC messages, into a returned error
  response dict (validated against the error schema when one is registered,
  the raw dict when validation fails); for broadcast messages it is
  re-raised;
* for RPC messages the returned result is `model_dump`-ed when it is a
  model and validated against the response schema when one is registered
  (raw result on validation failure);
* for broadcast messages `None` is returned. -/
def validated_handler (validateData : List (String × JVal) → Except String JVal)
    (func : JVal → FuncBehavior)
    (errSchema respSchema : SchemaValidator)
    (rawData : MsgBody) : HandlerRun :=
  let isRpc := match rawData.meta with
    | none => false
    | some m => m.isRpcField.getD false
  match validateData rawData.data with
  | .error e => .raises e
  | .ok validated =>
    match func validated with
    | .raises m => .raises m
    | .rpcError code msg details =>
      if isRpc then
        let errorResponse := to_response_dict code msg details
        match errSchema with
        | some validate =>
          match validate errorResponse with
          | some m => .returns (.model m)
          | none => .returns (.plain (.jobj errorResponse))
        | none => .returns (.plain (.jobj errorResponse))
      else
        .raises ("RPCError " ++ code ++ ": " ++ msg)
    | .ret v =>
      if isRpc then
        let result := match v with
          | .model kvs => kvs
          | .plain (.jobj kvs) => kvs
          | .plain _ => []
        match v with
        | .plain (.jobj _) | .model _ =>
          match respSchema with
          | some validate =>
            match validate result with
            | some m => .returns (.model m)
            | none => .returns (.plain (.jobj result))
          | none => .returns (.plain (.jobj result))
        | .plain other => .returns (.plain other)
      else
        .returns (.plain .jnull)

/-- A transport/protocol failure raised by `call_rpc`
(`celery_salt/core/exceptions.py` types `PublishError` and `TimeoutError`,
carrying `str(e)`). -/
inductive RpcFailure where
  | publishError (msg : String) : RpcFailure
  | timeoutError (msg : String) : RpcFailure

/-- The response value `call_rpc` receives from the result backend: the
dispatcher report, or a non-dict legacy value. -/
inductive RpcResponse where
  | fromReport (r : DispatchReport) : RpcResponse
  | legacy (v : JVal) : RpcResponse

/-- The inner unwrapping of the dispatcher response in `call_rpc`
(`celery_salt/integrations/producer.py`, lines 440-502), before exception
handling: a `no_handlers` report, an empty result list, or a first result
whose status is not `success` raise a `PublishError` (here the error
message); a `success` first result yields its `result` payload; a non-dict
response is returned as-is. -/
def rpcUnwrapInner (topic : String) (resp : RpcResponse) : Except String (Option JVal) :=
  match resp with
  | .legacy v => .ok (some v)
  | .fromReport (.noHandlers _) =>
    .error ("No handlers found for routing key " ++ squote ++ topic ++ squote)
  | .fromReport (.completed _ _ _ results) =>
    match results with
    | [] =>
      .error ("No results returned from handler for routing key " ++ squote ++ topic ++ squote)
    | first :: _ =>
      if first.status == "success" then
        .ok first.result
      else
        .error ("Handler " ++ squote ++ first.handler ++ squote ++ " failed: " ++
          first.error.getD "Unknown error")

/-- The inner `except Exception` clause of `call_rpc` (lines 504-510): an
exception whose lowercased text mentions `timeout` or `timed out` becomes a
`TimeoutError` naming the timeout and topic, anything else becomes
`PublishError("RPC call failed: ...")`. -/
def rpcExnToFailure (topic : String) (timeout : Nat) (msg : String) : RpcFailure :=
  if charsContain (lowerChars msg.data) "timeout".data ||
      charsContain (lowerChars msg.data) "timed out".data then
    .timeoutError ("No response received within " ++ toString timeout ++
      " seconds for routing key " ++ squote ++ topic ++ squote)
  else
    .publishError ("RPC call failed: " ++ msg)

/-- The result-wait-and-unwrap phase of `call_rpc`
(`celery_salt/integrations/producer.py`, lines 420-510): `result.get` either
raises (modelled by an `Except`-valued input) or yields the response, which
is unwrapped; every exception inside the inner `try` - including the
`PublishError`s raised by the unwrapping itself - passes through the inner
`except Exception` clause. -/
def call_rpc_unwrap (topic : String) (timeout : Nat)
    (getResult : Except String RpcResponse) : Except RpcFailure (Option JVal) :=
  match getResult with
  | .error e => .error (rpcExnToFailure topic timeout e)
  | .ok resp =>
    match rpcUnwrapInner topic resp with
    | .ok v => .ok v
    | .error msg => .error (rpcExnToFailure topic timeout msg)

/-- The Python value handed to `_validate_rpc_response`: `None`, a model
instance, a dict, or some other value. -/
inductive PyResp where
  | pnone : PyResp
  | pmodel (kvs : List (String × JVal)) : PyResp
  | pdict (kvs : List (String × JVal)) : PyResp
  | pother (v : JVal) : PyResp

/-- The value `_validate_rpc_response` returns: `None` back, a model
instance passed through, a validated error-schema or response-schema model
instance, or a raw dict. -/
inductive RpcValidated where
  | vNone : RpcValidated
  | vModelPassthrough (kvs : List (String × JVal)) : RpcValidated
  | vErrModel (kvs : List (String × JVal)) : RpcValidated
  | vRespModel (kvs : List (String × JVal)) : RpcValidated
  | vRawDict (kvs : List (String × JVal)) : RpcValidated

/-- `_validate_rpc_response` of `celery_salt/core/decorators.py` (lines
383-435). `None` is returned unchanged; a model instance is returned as-is;
a non-dict value is wrapped as `{"data": value}`. A dict carrying an
`error_code` or `error_message` key is validated against the registered
error schema (raw dict when none is registered or validation fails); any
other dict is validated against the registered response schema (raw dict
when none is registered or validation fails). The function never raises. -/
def _validate_rpc_response (errSchema respSchema : SchemaValidator)
    (response : PyResp) : RpcValidated :=
  match response with
  | .pnone => .vNone
  | .pmodel kvs => .vModelPassthrough kvs
  | .pdict kvs => validateDict kvs
  | .pother v => validateDict [("data", v)]
where
  validateDict (o : List (String × JVal)) : RpcValidated :=
    let isError := (lookupKey o "error_code").isSome || (lookupKey o "error_message").isSome
    if isError then
      match errSchema with
      | some validate =>
        match validate o with
        | some m => .vErrModel m
        | none => .vRawDict o
      | none => .vRawDict o
    else
      match respSchema with
      | some validate =>
        match validate o with
        | some m => .vRespModel m
        | none => .vRawDict o
      | none => .vRawDict o

/-- Classification of a JSON value arriving over the result backend into
the Python shape `_validate_rpc_response` sees. -/
def classifyJVal : Option JVal → PyResp
  | none => .pnone
  | some .jnull => .pnone
  | some (.jobj kvs) => .pdict kvs
  | some v => .pother v

/-- The `call` method created by `_create_rpc_method`
(`celery_salt/core/decorators.py`, lines 339-359): `call_rpc` followed by
`_validate_rpc_response` on the returned payload; transport failures
propagate. -/
def rpc_call (errSchema respSchema : SchemaValidator) (topic : String) (timeout : Nat)
    (getResult : Except String RpcResponse) : Except RpcFailure RpcValidated :=
  match call_rpc_unwrap topic timeout getResult with
  | .error f => .error f
  | .ok v => .ok (_validate_rpc_response errSchema respSchema (classifyJVal v))

/-- One component of a Pydantic `loc` tuple: a field name or an index. -/
inductive LocPart where
  | lstr (s : String) : LocPart
  | lint (n : Int) : LocPart

/-- One raw entry of `ValidationError.errors()`: the `loc`, `msg` and
`type` keys, each possibly absent (read with `.get` defaults). -/
structure RawVErr where
  loc : Option (List LocPart)
  msg : Option String
  vtype : Option String

/-- One formatted entry of the `errors` list built by
`format_validation_error`. -/
structure VEntry where
  loc : String
  msg : String
  vtype : String

/-- The record returned by `format_validation_error`. -/
structure FormattedVErr where
  summary : String
  errors : List VEntry
  errorCount : Nat

/-- `_loc_to_path` of `celery_salt/logging/validation_errors.py` (lines
47-60): an empty `loc` becomes `root`; a string component is kept, an
integer component becomes `[i]`; components are joined with a leading dot
except before brackets, and leading dots are stripped. -/
def _loc_to_path (loc : List LocPart) : String :=
  if loc.isEmpty then "root"
  else
    let parts := loc.map (fun x =>
      match x with
      | .lstr s => s
      | .lint n => "[" ++ toString n ++ "]")
    let joined := String.join (parts.map (fun p =>
      match p.data with
      | '[' :: _ => p
      | _ => "." ++ p))
    String.mk (joined.data.dropWhile (fun c => c == '.'))

/-- The `loc: msg` rendering of one formatted entry inside the summary,
with the Python falsy-string fallback `e["loc"] or "root"`. -/
def vEntryText (e : VEntry) : String :=
  (if e.loc == "" then "root" else e.loc) ++ ": " ++ e.msg

/-- The `parts` list of the multi-error summary branch of
`format_validation_error` (lines 35-37): the first five entries, plus the
`... and N more` suffix when more than five errors exist. -/
def summaryParts (errors : List VEntry) (errorCount : Nat) : List String :=
  let parts := (errors.take 5).map vEntryText
  if errorCount > 5 then
    parts ++ ["... and " ++ toString (errorCount - 5) ++ " more"]
  else
    parts

/-- `format_validation_error` of
`celery_salt/logging/validation_errors.py` (lines 6-44): maps each raw
error to `{loc, msg, type}` (with `.get` defaults and `_loc_to_path`),
counts the errors, and renders a one-line summary: the single entry for one
error, otherwise the count followed by the first five entries joined with
`; ` and a `... and N more` suffix past five. -/
def format_validation_error (rawErrors : List RawVErr) : FormattedVErr :=
  let errorCount := rawErrors.length
  let errors := rawErrors.map (fun e =>
    { loc := _loc_to_path (e.loc.getD []), msg := e.msg.getD "",
      vtype := e.vtype.getD "unknown" })
  let summary :=
    if errorCount == 1 then
      let e0 := errors.headD { loc := "", msg := "", vtype := "" }
      vEntryText e0 ++ " [type=" ++ e0.vtype ++ "]"
    else
      toString errorCount ++ " validation errors: " ++
        String.intercalate "; " (summaryParts errors errorCount)
  { summary := summary, errors := errors, errorCount := errorCount }

lemma charsContain_cons (c : Char) (t s : List Char) :
    charsContain (c :: t) s = (s.isPrefixOf (c :: t) || charsContain t s) := by
  simp [charsContain]

lemma charsContain_of_suffix (pre t s : List Char) (h : charsContain t s = true) :
    charsContain (pre ++ t) s = true := by
  induction pre with
  | nil => simpa using h
  | cons c cs ih => simp [charsContain_cons, ih]

lemma charsContain_self_append (s post : List Char) :
    charsContain (s ++ post) s = true := by
  unfold charsContain
  have hmem : s ++ post ∈ (s ++ post).tails := by
    simp [List.mem_tails]
  refine List.any_eq_true.mpr ⟨s ++ post, hmem, ?_⟩
  exact List.isPrefixOf_iff_prefix.mpr (List.prefix_append s post)

lemma charsContain_middle (pre s post : List Char) :
    charsContain (pre ++ s ++ post) s = true := by
  rw [List.append_assoc]
  exact charsContain_of_suffix pre (s ++ post) s (charsContain_self_append s post)

/-- C7: `is_version_compatible` satisfies the section 4.1 contract table:
two specific tags are compatible exactly when the handler tag compares less
than or equal to the message tag (so `(v1, v2)` holds and `(v2, v1)` does
not), a `latest` or absent handler version accepts every message version
including an absent one, and a specific handler tag rejects an absent
message version. -/
theorem C7_is_version_compatible_contract :
    (is_version_compatible (some "v1") (some "v2") = true) ∧
    (is_version_compatible (some "v2") (some "v1") = false) ∧
    (∀ m : Option String, is_version_compatible (some "latest") m = true) ∧
    (∀ m : Option String, is_version_compatible none m = true) ∧
    (is_version_compatible (some "v1") none = false) ∧
    (∀ h m : String, h ≠ "latest" →
      (is_version_compatible (some h) (some m) = true ↔ compare_versions h m ≤ 0)) := by
  refine ⟨by decide, by decide, fun m => rfl, fun m => rfl, by decide, ?_⟩
  intro h m hne
  have hb : (h == "latest") = false := beq_eq_false_iff_ne.mpr hne
  simp [is_version_compatible, hb]

/-- C7 witness: the specific-versus-specific clause evaluated at the
concrete pair `("v1", "v2")`. -/
theorem C7_witness :
    is_version_compatible (some "v1") (some "v2") = true ↔ compare_versions "v1" "v2" ≤ 0 :=
  C7_is_version_compatible_contract.2.2.2.2.2 "v1" "v2" (by decide)

/-- An example list of seven raw validation errors used to instantiate the
formatting theorems on concrete input. -/
def exampleRawErrors : List RawVErr :=
  List.replicate 7
    ({ loc := some [.lstr "items", .lint 0, .lstr "email"],
       msg := some "value is not a valid email address",
       vtype := some "value_error" } : RawVErr)

/-- C9: `format_validation_error` maps a validation error with `n` field
violations to a record with `error_count = n` and one `errors` entry per
violation carrying the dotted/indexed location path (for example
`items[0].email`), the message and the type tag; the multi-error summary is
built from at most the first five violations, and past five it ends with a
suffix naming how many more remain. -/
theorem C9_format_validation_error_shape (rawErrors : List RawVErr) :
    ((format_validation_error rawErrors).errorCount = rawErrors.length) ∧
    ((format_validation_error rawErrors).errors.length = rawErrors.length) ∧
    (∀ i : Nat, (format_validation_error rawErrors).errors.get? i =
      (rawErrors.get? i).map (fun e =>
        { loc := _loc_to_path (e.loc.getD []), msg := e.msg.getD "",
          vtype := e.vtype.getD "unknown" })) ∧
    (_loc_to_path [.lstr "items", .lint 0, .lstr "email"] = "items[0].email") ∧
    (2 ≤ rawErrors.length →
      (format_validation_error rawErrors).summary =
        toString rawErrors.length ++ " validation errors: " ++
          String.intercalate "; "
            (summaryParts (format_validation_error rawErrors).errors rawErrors.length)) ∧
    (2 ≤ rawErrors.length → rawErrors.length ≤ 5 →
      (summaryParts (format_validation_error rawErrors).errors rawErrors.length).length =
        rawErrors.length) ∧
    (5 < rawErrors.length →
      (summaryParts (format_validation_error rawErrors).errors rawErrors.length).length = 6) ∧
    (5 < rawErrors.length →
      (summaryParts (format_validation_error rawErrors).errors rawErrors.length).getLast? =
        some ("... and " ++ toString (rawErrors.length - 5) ++ " more")) := by
  refine ⟨rfl, by simp [format_validation_error], ?_, by decide, ?_, ?_, ?_, ?_⟩
  · intro i
    simp [format_validation_error, List.getElem?_map]
  · intro h2
    have hne : (rawErrors.length == 1) = false := beq_eq_false_iff_ne.mpr (by omega)
    simp [format_validation_error, hne]
  · intro h2 h5
    have hgt : ¬ rawErrors.length > 5 := by omega
    simp [summaryParts, format_validation_error, hgt]
    omega
  · intro h5
    simp [summaryParts, format_validation_error, h5]
    omega
  · intro h5
    simp [summaryParts, format_validation_error, h5]

/-- C9 witness: the formatting theorem applied to a concrete list of seven
violations; the summary parts end with the two-more suffix and the count is
seven. -/
theorem C9_witness :
    ((summaryParts (format_validation_error exampleRawErrors).errors
        exampleRawErrors.length).getLast? =
      some ("... and " ++ toString (exampleRawErrors.length - 5) ++ " more")) ∧
    ((format_validation_error exampleRawErrors).errorCount = exampleRawErrors.length) ∧
    ((summaryParts (format_validation_error exampleRawErrors).errors
        exampleRawErrors.length).length = 6) :=
  ⟨(C9_format_validation_error_shape exampleRawErrors).2.2.2.2.2.2.2 (by decide),
   (C9_format_validation_error_shape exampleRawErrors).1,
   (C9_format_validation_error_shape exampleRawErrors).2.2.2.2.2.2.1 (by decide)⟩

lemma dispatch_event_completed (rk mid : String) (body : MsgBody)
    (handlers : List HandlerReg) (hne : handlers ≠ []) :
    dispatch_event rk mid (.ok body) (fun _ => .ok handlers) =
      .ok (.completed rk (dispatch_is_rpc body) handlers.length
        (handlers.map (fun h => if dispatch_is_rpc body then execHandlerRpc body h
          else execHandlerBroadcast mid h))) := by
  simp [dispatch_event, hne]

lemma execHandlerRpc_status (body : MsgBody) (h : HandlerReg) :
    (execHandlerRpc body h).status = "success" ∨ (execHandlerRpc body h).status = "error" := by
  cases hr : h.run body with
  | returns v =>
    cases v with
    | model kvs => left; simp [execHandlerRpc, hr]
    | plain v => left; simp [execHandlerRpc, hr]
  | raises e => right; simp [execHandlerRpc, hr]

/-- C4: a message whose body has no `_tchu_meta` block dispatches with
`is_rpc = true`, and every matching handler is invoked synchronously inside
the dispatch call (each outcome comes from the direct-call branch, recording
`success` or `error` - never the asynchronous `dispatched` status). -/
theorem C4_no_meta_direct_call (rk mid : String) (data : List (String × JVal))
    (handlers : List HandlerReg) (hne : handlers ≠ []) :
    (dispatch_is_rpc { data := data, meta := none } = true) ∧
    (dispatch_event rk mid (.ok { data := data, meta := none }) (fun _ => .ok handlers) =
      .ok (.completed rk true handlers.length
        (handlers.map (execHandlerRpc { data := data, meta := none })))) ∧
    (∀ o ∈ handlers.map (execHandlerRpc { data := data, meta := none }),
      o.status = "success" ∨ o.status = "error") := by
  refine ⟨rfl, ?_, ?_⟩
  · rw [dispatch_event_completed rk mid _ handlers hne]
    simp [dispatch_is_rpc]
  · intro o ho
    rcases List.mem_map.mp ho with ⟨h, _, rfl⟩
    exact execHandlerRpc_status _ h

/-- An example handler registration that returns a plain value. -/
def exHandlerA : HandlerReg :=
  { pattern := "user.created", name := "hA", id := "iA", version := none,
    run := fun _ => .returns (.plain (.jstr "ok")) }

/-- An example handler registration that raises an exception. -/
def exHandlerBad : HandlerReg :=
  { pattern := "user.created", name := "hB", id := "iB", version := none,
    run := fun _ => .raises "boom" }

/-- C4 witness: the no-metadata dispatch theorem applied to one concrete
handler. -/
theorem C4_witness :
    ([exHandlerA] ≠ ([] : List HandlerReg)) ∧
    (dispatch_event "user.created" "m1" (.ok { data := [], meta := none })
        (fun _ => .ok [exHandlerA]) =
      .ok (.completed "user.created" true 1
        ([exHandlerA].map (execHandlerRpc { data := [], meta := none })))) :=
  ⟨List.cons_ne_nil _ _,
   (C4_no_meta_direct_call "user.created" "m1" [] [exHandlerA] (List.cons_ne_nil _ _)).2.1⟩

/-- C5: an exception inside one handler execution becomes that handler
outcome (`status = error` with the exception text), every handler still
contributes exactly one outcome to the report, and `dispatch_event` returns
normally whenever deserialization and handler lookup succeed; a failure of
deserialization or of handler lookup is re-raised out of `dispatch_event`. -/
theorem C5_error_isolation_and_fatal_paths :
    (∀ (body : MsgBody) (h : HandlerReg) (e : String),
      h.run body = .raises e →
        execHandlerRpc body h =
          { handler := h.name, status := "error", error := some e }) ∧
    (∀ (rk mid : String) (body : MsgBody) (handlers : List HandlerReg),
      handlers ≠ [] →
        dispatch_event rk mid (.ok body) (fun _ => .ok handlers) =
          .ok (.completed rk (dispatch_is_rpc body) handlers.length
            (handlers.map (fun h => if dispatch_is_rpc body then execHandlerRpc body h
              else execHandlerBroadcast mid h)))) ∧
    (∀ (rk mid : String) (body : MsgBody) (handlers : List HandlerReg),
      ∃ rep, dispatch_event rk mid (.ok body) (fun _ => .ok handlers) = .ok rep) ∧
    (∀ (rk mid e : String) (gh : String → Except String (List HandlerReg)),
      dispatch_event rk mid (.error e) gh = .error e) ∧
    (∀ (rk mid : String) (body : MsgBody) (e : String),
      dispatch_event rk mid (.ok body) (fun _ => .error e) = .error e) := by
  refine ⟨?_, ?_, ?_, fun rk mid e gh => rfl, fun rk mid body e => rfl⟩
  · intro body h e hr
    simp [execHandlerRpc, hr]
  · intro rk mid body handlers hne
    exact dispatch_event_completed rk mid body handlers hne
  · intro rk mid body handlers
    cases handlers with
    | nil => exact ⟨.noHandlers rk, by simp [dispatch_event]⟩
    | cons a l => exact ⟨_, dispatch_event_completed rk mid body (a :: l) (by simp)⟩

/-- C5 witness: a raising handler produces an `error` outcome while its
sibling still executes, on a concrete two-handler dispatch. -/
theorem C5_witness :
    (exHandlerBad.run { data := [], meta := none } = .raises "boom") ∧
    (execHandlerRpc { data := [], meta := none } exHandlerBad =
      { handler := "hB", status := "error", error := some "boom" }) ∧
    ([exHandlerBad, exHandlerA] ≠ ([] : List HandlerReg)) ∧
    (dispatch_event "user.created" "m1" (.ok { data := [], meta := none })
        (fun _ => .ok [exHandlerBad, exHandlerA]) =
      .ok (.completed "user.created" true 2
        ([exHandlerBad, exHandlerA].map (fun h =>
          if dispatch_is_rpc { data := [], meta := none } then
            execHandlerRpc { data := [], meta := none } h
          else execHandlerBroadcast "m1" h)))) :=
  ⟨rfl,
   C5_error_isolation_and_fatal_paths.1 { data := [], meta := none } exHandlerBad "boom" rfl,
   List.cons_ne_nil _ _,
   C5_error_isolation_and_fatal_paths.2.1 "user.created" "m1" { data := [], meta := none }
     [exHandlerBad, exHandlerA] (List.cons_ne_nil _ _)⟩

/-- The message carried by a transport failure, for theorems inspecting the
error a failed RPC call raises. -/
def RpcFailure.msgOf : RpcFailure → String
  | .publishError m => m
  | .timeoutError m => m

lemma charsContain_str_suffix (pre t : String) (s : List Char)
    (h : charsContain t.data s = true) : charsContain (pre ++ t).data s = true := by
  rw [String.data_append]
  exact charsContain_of_suffix _ _ _ h

lemma charsContain_str_middle (pre s post : String) :
    charsContain (pre ++ s ++ post).data s.data = true := by
  simp [String.data_append]
  have := charsContain_middle pre.data s.data post.data
  simpa [List.append_assoc] using this

/-- C6: dispatching with no matching handlers returns the `no_handlers`
report naming the routing key without raising, and an RPC call receiving
that report fails with a raised transport error whose message names the
topic, instead of returning a value. -/
theorem C6_no_handlers_outcome (rk mid topic : String) (timeout : Nat) (body : MsgBody) :
    (dispatch_event rk mid (.ok body) (fun _ => .ok []) = .ok (.noHandlers rk)) ∧
    (∃ f : RpcFailure,
      call_rpc_unwrap topic timeout (.ok (.fromReport (.noHandlers rk))) = .error f ∧
      charsContain (RpcFailure.msgOf f).data topic.data = true) := by
  constructor
  · simp [dispatch_event]
  · refine ⟨rpcExnToFailure topic timeout
      ("No handlers found for routing key " ++ squote ++ topic ++ squote), rfl, ?_⟩
    unfold rpcExnToFailure
    split
    · show charsContain ("No response received within " ++ toString timeout ++
        " seconds for routing key " ++ squote ++ topic ++ squote).data topic.data = true
      exact charsContain_str_middle _ topic squote
    · show charsContain ("RPC call failed: " ++
        ("No handlers found for routing key " ++ squote ++ topic ++ squote)).data topic.data = true
      exact charsContain_str_suffix _ _ _ (charsContain_str_middle _ topic squote)

/-- C10: a `_tchu_meta` block that is present but carries no `is_rpc` key
dispatches as broadcast (`is_rpc = false`, every handler recorded as
`dispatched` without synchronous execution), while an absent block
dispatches as RPC (`is_rpc = true`): the mere presence of the metadata
block flips the default execution mode. -/
theorem C10_meta_presence_flips_default (rk mid : String) (data : List (String × JVal))
    (ver : Option String) (handlers : List HandlerReg) (hne : handlers ≠ []) :
    (dispatch_is_rpc { data := data, meta := some { isRpcField := none, version := ver } } =
      false) ∧
    (dispatch_is_rpc { data := data, meta := none } = true) ∧
    (dispatch_event rk mid
        (.ok { data := data, meta := some { isRpcField := none, version := ver } })
        (fun _ => .ok handlers) =
      .ok (.completed rk false handlers.length
        (handlers.map (execHandlerBroadcast mid)))) ∧
    (∀ o ∈ handlers.map (execHandlerBroadcast mid), o.status = "dispatched") ∧
    (dispatch_event rk mid (.ok { data := data, meta := none }) (fun _ => .ok handlers) =
      .ok (.completed rk true handlers.length
        (handlers.map (execHandlerRpc { data := data, meta := none })))) := by
  refine ⟨rfl, rfl, ?_, ?_, ?_⟩
  · rw [dispatch_event_completed rk mid _ handlers hne]
    simp [dispatch_is_rpc]
  · intro o ho
    rcases List.mem_map.mp ho with ⟨h, _, rfl⟩
    simp [execHandlerBroadcast]
  · rw [dispatch_event_completed rk mid _ handlers hne]
    simp [dispatch_is_rpc]

/-- C10 witness: the metadata-default theorem applied to one concrete
handler, with and without the metadata block. -/
theorem C10_witness :
    ([exHandlerA] ≠ ([] : List HandlerReg)) ∧
    (dispatch_event "user.created" "m1"
        (.ok { data := [], meta := some { isRpcField := none, version := none } })
        (fun _ => .ok [exHandlerA]) =
      .ok (.completed "user.created" false 1
        ([exHandlerA].map (execHandlerBroadcast "m1")))) :=
  ⟨List.cons_ne_nil _ _,
   (C10_meta_presence_flips_default "user.created" "m1" [] none [exHandlerA]
     (List.cons_ne_nil _ _)).2.2.1⟩

lemma execHandlerRpc_handler (body : MsgBody) (h : HandlerReg) :
    (execHandlerRpc body h).handler = h.name := by
  cases hr : h.run body with
  | returns v => cases v <;> simp [execHandlerRpc, hr]
  | raises e => simp [execHandlerRpc, hr]

/-- C1 counterexample: a message tagged `version = v1` is dispatched to a
handler whose declared version is `v2`. The pair is version-incompatible
under the section 4.1 rule, yet the handler is executed and its outcome
appears in the dispatch report - `dispatch_event` consults no version
information at all, so the claimed silent skipping does not happen. -/
theorem C1_counterexample :
    (is_version_compatible (some "v2") (some "v1") = false) ∧
    (dispatch_event "user.created" "m1"
        (.ok { data := [], meta := some { isRpcField := some true, version := some "v1" } })
        (fun k => .ok (registryGetHandlers
          [{ pattern := "user.created", name := "handler_v2", id := "h2",
             version := some "v2",
             run := fun _ => .returns (.plain .jnull) }] k)) =
      .ok (.completed "user.created" true 1
        [{ handler := "handler_v2", status := "success", result := some .jnull }])) :=
  ⟨by decide, rfl⟩

/-- C1 amended: the dispatcher applies no version-compatibility filter:
every handler whose pattern matches the routing key is executed (or
dispatched) and contributes one outcome to the report, whatever its declared
version and whatever the version tag of the envelope. -/
theorem C1_amended_no_version_filtering (rk mid : String) (body : MsgBody)
    (regs : List HandlerReg) (hne : registryGetHandlers regs rk ≠ []) :
    (dispatch_event rk mid (.ok body) (fun k => .ok (registryGetHandlers regs k)) =
      .ok (.completed rk (dispatch_is_rpc body) (registryGetHandlers regs rk).length
        ((registryGetHandlers regs rk).map (fun h =>
          if dispatch_is_rpc body then execHandlerRpc body h
          else execHandlerBroadcast mid h)))) ∧
    (((registryGetHandlers regs rk).map (fun h =>
        if dispatch_is_rpc body then execHandlerRpc body h
        else execHandlerBroadcast mid h)).map Outcome.handler =
      (registryGetHandlers regs rk).map HandlerReg.name) := by
  constructor
  · simp [dispatch_event, hne]
  · rw [List.map_map]
    refine List.map_congr_left ?_
    intro h _
    by_cases hc : dispatch_is_rpc body = true
    · simp [hc, execHandlerRpc_handler]
    · simp [hc, execHandlerBroadcast]

/-- C1 witness: the amended no-filtering theorem applied to one concrete
matching registration. -/
theorem C1_witness :
    (registryGetHandlers [exHandlerA] "user.created" ≠ []) ∧
    (((registryGetHandlers [exHandlerA] "user.created").map (fun h =>
        if dispatch_is_rpc { data := [], meta := none } then
          execHandlerRpc { data := [], meta := none } h
        else execHandlerBroadcast "m1" h)).map Outcome.handler =
      (registryGetHandlers [exHandlerA] "user.created").map HandlerReg.name) :=
  ⟨fun h => List.noConfusion (h.symm.trans rfl).symm,
   (C1_amended_no_version_filtering "user.created" "m1" { data := [], meta := none }
     [exHandlerA] (fun h => List.noConfusion ((rfl :
       registryGetHandlers [exHandlerA] "user.created" = [exHandlerA]).symm.trans h))).2⟩

/-- C2 counterexample: an RPC-mode message whose sole matching handler
raises `RPCError("E42", "boom")`. The wrapper converts the error into a
returned error-response dict, so the dispatch report records the handler
with status `success` (not `error`) and the error code and message live in
the result payload - the per-handler `error` status the claim predicts does
not occur. -/
theorem C2_counterexample :
    (dispatch_event "rpc.add" "m1"
        (.ok { data := [("a", .jnum 1)],
               meta := some { isRpcField := some true, version := none } })
        (fun _ => .ok [{ pattern := "rpc.add", name := "h1", id := "i1", version := none,
                         run := validated_handler (fun kvs => .ok (.jobj kvs))
                           (fun _ => .rpcError "E42" "boom" none) none none }]) =
      .ok (.completed "rpc.add" true 1
        [{ handler := "h1", status := "success",
           result := some (.jobj [("error_code", .jstr "E42"),
             ("error_message", .jstr "boom")]) }])) ∧
    ((("success" : String) == "error") = false) :=
  ⟨rfl, by decide⟩

/-- C2 amended: when the sole matching handler of an RPC-mode message
raises a business-level RPCError, the dispatch report records that handler
with status `success` whose result payload is the error-response dict
carrying the error code and message (with no error schema registered); for
a broadcast-mode message the dispatcher records status `dispatched` for the
handler and captures no error. -/
theorem C2_amended (rk mid : String) (data : List (String × JVal)) (ver : Option String)
    (validateData : List (String × JVal) → Except String JVal)
    (func : JVal → FuncBehavior) (respSchema : SchemaValidator)
    (pat nm hid : String) (hver : Option String)
    (code msg : String) (details : Option JVal) (vd : JVal)
    (hval : validateData data = .ok vd)
    (hfunc : func vd = .rpcError code msg details) :
    (dispatch_event rk mid
        (.ok { data := data, meta := some { isRpcField := some true, version := ver } })
        (fun _ => .ok [{ pattern := pat, name := nm, id := hid, version := hver,
                         run := validated_handler validateData func none respSchema }]) =
      .ok (.completed rk true 1
        [{ handler := nm, status := "success",
           result := some (.jobj (to_response_dict code msg details)) }])) ∧
    (lookupKey (to_response_dict code msg details) "error_code" = some (.jstr code)) ∧
    (lookupKey (to_response_dict code msg details) "error_message" = some (.jstr msg)) ∧
    (dispatch_event rk mid
        (.ok { data := data, meta := some { isRpcField := some false, version := ver } })
        (fun _ => .ok [{ pattern := pat, name := nm, id := hid, version := hver,
                         run := validated_handler validateData func none respSchema }]) =
      .ok (.completed rk false 1
        [{ handler := nm, status := "dispatched",
           taskId := some (mid ++ ":" ++ hid) }])) := by
  refine ⟨?_, ?_, ?_, ?_⟩
  · simp [dispatch_event, dispatch_is_rpc, execHandlerRpc, validated_handler, hval, hfunc]
  · cases details <;> simp [to_response_dict, lookupKey]
  · cases details <;> simp [to_response_dict, lookupKey]
  · simp [dispatch_event, dispatch_is_rpc, execHandlerBroadcast]

/-- An example subscription validator that accepts any payload. -/
def exValidate : List (String × JVal) → Except String JVal :=
  fun kvs => .ok (.jobj kvs)

/-- An example subscriber function that always raises
`RPCError("E42", "boom")`. -/
def exRpcErrorFunc : JVal → FuncBehavior :=
  fun _ => .rpcError "E42" "boom" none

/-- C2 witness: the amended theorem applied to a concrete always-raising
handler in RPC mode. -/
theorem C2_witness :
    (exValidate [] = .ok (.jobj [])) ∧
    (exRpcErrorFunc (.jobj []) = .rpcError "E42" "boom" none) ∧
    (dispatch_event "rpc.add" "m9"
        (.ok { data := [], meta := some { isRpcField := some true, version := none } })
        (fun _ => .ok [{ pattern := "rpc.add", name := "h1", id := "i1", version := none,
                         run := validated_handler exValidate exRpcErrorFunc none none }]) =
      .ok (.completed "rpc.add" true 1
        [{ handler := "h1", status := "success",
           result := some (.jobj (to_response_dict "E42" "boom" none)) }])) :=
  ⟨rfl, rfl,
   (C2_amended "rpc.add" "m9" [] none exValidate exRpcErrorFunc none "rpc.add" "h1" "i1"
     none "E42" "boom" none (.jobj []) rfl rfl).1⟩

/-- Whether an `Except`-valued computation ended in a raised exception. -/
def exceptRaised {ε α : Type} : Except ε α → Bool
  | .error _ => true
  | .ok _ => false

/-- The constructor tag of an RPC validation outcome, for comparing the
shape of two outcomes. -/
def rpcValidatedTag : RpcValidated → String
  | .vNone => "none"
  | .vModelPassthrough _ => "model_passthrough"
  | .vErrModel _ => "error_model"
  | .vRespModel _ => "response_model"
  | .vRawDict _ => "raw_dict"

/-- C3 counterexample: a dispatch report whose first result has status
`error` makes `call_rpc` raise a `PublishError` naming the handler and the
error text - the call does not return the error payload as a value, contrary
to the claim. -/
theorem C3_counterexample :
    (call_rpc_unwrap "rpc.add" 30 (.ok (.fromReport (.completed "rpc.add" true 1
        [{ handler := "h1", status := "error", error := some "boom" }]))) =
      .error (.publishError ("RPC call failed: " ++ ("Handler " ++ squote ++ "h1" ++
        squote ++ " failed: boom")))) ∧
    (exceptRaised (call_rpc_unwrap "rpc.add" 30 (.ok (.fromReport (.completed "rpc.add" true 1
        [{ handler := "h1", status := "error", error := some "boom" }])))) = true) :=
  ⟨rfl, rfl⟩

/-- C3 amended: a dispatch report whose first result has status `error`
causes the RPC call to raise a `PublishError` built from the handler name
and error text (a `TimeoutError` instead when that text mentions a
timeout), rather than returning the payload as a value; business errors
reach the caller only as the payload of a `success` first result. -/
theorem C3_amended (topic : String) (timeout : Nat) (rk : String) (isRpc : Bool) (n : Nat)
    (first : Outcome) (rest : List Outcome) (e : String)
    (hstatus : first.status = "error") (herr : first.error = some e)
    (h1 : charsContain (lowerChars ("Handler " ++ squote ++ first.handler ++ squote ++
      " failed: " ++ e).data) "timeout".data = false)
    (h2 : charsContain (lowerChars ("Handler " ++ squote ++ first.handler ++ squote ++
      " failed: " ++ e).data) "timed out".data = false) :
    call_rpc_unwrap topic timeout (.ok (.fromReport (.completed rk isRpc n (first :: rest)))) =
      .error (.publishError ("RPC call failed: " ++ ("Handler " ++ squote ++ first.handler ++
        squote ++ " failed: " ++ e))) := by
  have hinner : rpcUnwrapInner topic (.fromReport (.completed rk isRpc n (first :: rest))) =
      .error ("Handler " ++ squote ++ first.handler ++ squote ++ " failed: " ++ e) := by
    simp only [rpcUnwrapInner]
    rw [if_neg (by simp [hstatus]), herr, Option.getD_some]
  simp only [call_rpc_unwrap]
  rw [hinner]
  show Except.error (rpcExnToFailure topic timeout
    ("Handler " ++ squote ++ first.handler ++ squote ++ " failed: " ++ e)) = _
  unfold rpcExnToFailure
  rw [h1, h2]
  simp

/-- C3 witness: the amended theorem applied to a concrete error-status
first result. -/
theorem C3_witness :
    (({ handler := "h1", status := "error", error := some "boom" } : Outcome).status =
      "error") ∧
    (call_rpc_unwrap "rpc.t" 30 (.ok (.fromReport (.completed "rpc.t" true 1
        [{ handler := "h1", status := "error", error := some "boom" }]))) =
      .error (.publishError ("RPC call failed: " ++ ("Handler " ++ squote ++ "h1" ++
        squote ++ " failed: boom")))) :=
  ⟨rfl,
   C3_amended "rpc.t" 30 "rpc.t" true 1
     { handler := "h1", status := "error", error := some "boom" } [] "boom"
     rfl rfl (by decide) (by decide)⟩

/-- The response-schema-only validation rule claim C8 describes, written
from the spec words (section 4.6): validate the payload against the
registered response schema and return the raw payload on mismatch. -/
def specResponseValidation (respValidate : List (String × JVal) → Option (List (String × JVal)))
    (payload : List (String × JVal)) : RpcValidated :=
  match respValidate payload with
  | some m => .vRespModel m
  | none => .vRawDict payload

/-- C8 counterexample: a `success` first result whose payload carries an
`error_code` key, with both a response schema and an error schema
registered. The code validates the payload against the error schema and
returns the error-model value, not the response-schema validation the claim
prescribes for every success payload. -/
theorem C8_counterexample :
    (rpc_call (some (fun _ => some [("from", .jstr "error_schema")]))
        (some (fun _ => some [("from", .jstr "response_schema")])) "rpc.t" 30
        (.ok (.fromReport (.completed "rpc.t" true 1
          [{ handler := "h1", status := "success",
             result := some (.jobj [("error_code", .jstr "X")]) }]))) =
      .ok (.vErrModel [("from", .jstr "error_schema")])) ∧
    (specResponseValidation (fun _ => some [("from", .jstr "response_schema")])
        [("error_code", .jstr "X")] =
      .vRespModel [("from", .jstr "response_schema")]) ∧
    ((rpcValidatedTag (.vErrModel [("from", .jstr "error_schema")]) ==
        rpcValidatedTag (.vRespModel [("from", .jstr "response_schema")])) = false) :=
  ⟨rfl, rfl, by decide⟩

/-- C8 amended: when the first result has status `success`, a response
schema is registered, and the payload carries no `error_code` or
`error_message` key, the call returns exactly the spec rule: the payload
validated against the response schema, with the raw payload returned
unchanged on mismatch; the validation step never raises. Payloads carrying
an error key are routed to the error-schema branch instead. -/
theorem C8_amended (errSchema : SchemaValidator)
    (respValidate : List (String × JVal) → Option (List (String × JVal)))
    (payload : List (String × JVal)) (topic : String) (timeout : Nat)
    (rk : String) (isRpc : Bool) (n : Nat) (h0 : String) (rest : List Outcome)
    (hne1 : lookupKey payload "error_code" = none)
    (hne2 : lookupKey payload "error_message" = none) :
    rpc_call errSchema (some respValidate) topic timeout
        (.ok (.fromReport (.completed rk isRpc n
          ({ handler := h0, status := "success", result := some (.jobj payload) } :: rest)))) =
      .ok (specResponseValidation respValidate payload) := by
  unfold rpc_call call_rpc_unwrap rpcUnwrapInner classifyJVal specResponseValidation
  simp [_validate_rpc_response, _validate_rpc_response.validateDict, hne1, hne2]

/-- C8 witness: the amended theorem applied to a concrete success payload
with an accepting response schema. -/
theorem C8_witness :
    (lookupKey [("result", .jnum 42)] "error_code" = none) ∧
    (lookupKey [("result", .jnum 42)] "error_message" = none) ∧
    (rpc_call none (some (fun kvs => some kvs)) "rpc.t" 30
        (.ok (.fromReport (.completed "rpc.t" true 1
          [{ handler := "h1", status := "success",
             result := some (.jobj [("result", .jnum 42)]) }]))) =
      .ok (specResponseValidation (fun kvs => some kvs) [("result", .jnum 42)])) :=
  ⟨rfl, rfl,
   C8_amended none (fun kvs => some kvs) [("result", .jnum 42)] "rpc.t" 30 "rpc.t" true 1
     "h1" [] rfl rfl⟩
